import Mathlib

/-!
Verification development for the ArqonBus Shield gateway.

This file gives a shallow embedding of the Shield per-frame pipeline and its
enforcement substrate (crates/shield): the mirror sampler, the bus bridge
records, the schema validator, the policy engine, the Wasm host ABI and the
connection actor, together with theorems about the embedded definitions.

Conventions of the embedding:
  - byte strings are modelled as List Nat (each element a byte value);
  - Rust Result values are modelled as Except String;
  - machine integers are Nat or Int with explicit reductions modulo 2 ^ w
    where overflow or casts matter;
  - external library behaviour (the bus client, prost decoding, the Wasm
    runtime) is abstracted as data carried by the embedded structures, while
    every branch of the repository's own code is translated literally.
-/

/-! ## Tokenization by a separator character

Rust str.split(sep) for a one-character separator: splitting the empty
string yields one empty field, separators at the ends yield empty fields.
-/

def splitChar (sep : Char) : List Char → List (List Char)
  | [] => [[]]
  | c :: cs =>
    if c = sep then [] :: splitChar sep cs
    else
      match splitChar sep cs with
      | t :: ts => (c :: t) :: ts
      | [] => [[c]]

/-- Tokens of a string split on the dot separator, as in pattern.split('.')
in crates/shield/src/router/mirroring.rs. -/
def splitDot (s : String) : List String :=
  (splitChar '.' s.data).map (fun l => String.mk l)

/-! ## Mirror sampler (crates/shield/src/router/mirroring.rs) -/

/-- Configuration for a single mirroring rule. The source field is named
prefix; that identifier is reserved here, so the embedding calls it
prefixPat. -/
structure MirrorRule where
  prefixPat : String
  percent : ℚ

/-- Mirroring configuration. -/
structure MirrorConfig where
  enabled : Bool
  rules : List MirrorRule

/-- Token-wise matcher behind subject_matches: the while loop over
pattern_parts and subject_parts. A star consumes exactly one subject token,
a gt token returns true immediately, any other token must be equal; after
the loop both index positions must be at the end. -/
def matchTokens : List String → List String → Bool
  | p :: ps, s :: ss =>
    if p = "*" then matchTokens ps ss
    else if p = ">" then true
    else if p = s then matchTokens ps ss
    else false
  | ps, ss => ps.isEmpty && ss.isEmpty

/-- Check if a subject matches a prefix pattern
(subject_matches in mirroring.rs). -/
def subject_matches (pattern subject : String) : Bool :=
  matchTokens (splitDot pattern) (splitDot subject)

/-- Find the mirror percentage for a given subject
(MirrorConfig::get_percent in mirroring.rs): first matching rule wins. -/
def MirrorConfig.get_percent (cfg : MirrorConfig) (subject : String) : Option ℚ :=
  if !cfg.enabled then none
  else
    match cfg.rules.find? (fun r => subject_matches r.prefixPat subject) with
    | some r => some r.percent
    | none => none

/-! ### The stable 64-bit hash

std::collections::hash_map::DefaultHasher is SipHash-1-3 with both keys
zero; hashing a str feeds its UTF-8 bytes followed by a 0xff byte.
-/

def wrap64 (x : Nat) : Nat := x % 18446744073709551616

def rotl64 (x r : Nat) : Nat := wrap64 (x * 2 ^ r) ||| x / 2 ^ (64 - r)

structure SipState where
  v0 : Nat
  v1 : Nat
  v2 : Nat
  v3 : Nat

def sipRound (s : SipState) : SipState :=
  let a0 := wrap64 (s.v0 + s.v1)
  let a1 := rotl64 s.v1 13
  let b1 := a1 ^^^ a0
  let b0 := rotl64 a0 32
  let a2 := wrap64 (s.v2 + s.v3)
  let a3 := rotl64 s.v3 16
  let b3 := a3 ^^^ a2
  let c0 := wrap64 (b0 + b3)
  let c3 := rotl64 b3 21
  let d3 := c3 ^^^ c0
  let c2 := wrap64 (a2 + b1)
  let c1 := rotl64 b1 17
  let d1 := c1 ^^^ c2
  let d2 := rotl64 c2 32
  ⟨c0, d1, d2, d3⟩

/-- Little-endian value of up to eight bytes. -/
def leWord : List Nat → Nat
  | [] => 0
  | b :: bs => b % 256 + 256 * leWord bs

def sipCompress (s : SipState) (m : Nat) : SipState :=
  let s1 : SipState := ⟨s.v0, s.v1, s.v2, s.v3 ^^^ m⟩
  let s2 := sipRound s1
  ⟨s2.v0 ^^^ m, s2.v1, s2.v2, s2.v3⟩

def sipFinish (len : Nat) (s : SipState) (tail : List Nat) : Nat :=
  let b := (len % 256) * 2 ^ 56 ||| leWord tail
  let s1 := sipCompress s b
  let s2 : SipState := ⟨s1.v0, s1.v1, s1.v2 ^^^ 255, s1.v3⟩
  let s3 := sipRound (sipRound (sipRound s2))
  wrap64 (s3.v0 ^^^ s3.v1 ^^^ s3.v2 ^^^ s3.v3)

/-- Compression of the full eight-byte blocks; returns the state and the
remaining tail of fewer than eight bytes. -/
def sipBlocks (s : SipState) : List Nat → SipState × List Nat
  | b0 :: b1 :: b2 :: b3 :: b4 :: b5 :: b6 :: b7 :: rest =>
    sipBlocks (sipCompress s (leWord [b0, b1, b2, b3, b4, b5, b6, b7])) rest
  | tail => (s, tail)

/-- SipHash-1-3 with both keys zero over a byte list; the result is a u64. -/
def sipHash13 (msg : List Nat) : Nat :=
  sipFinish msg.length
    (sipBlocks ⟨0x736f6d6570736575, 0x646f72616e646f6d, 0x6c7967656e657261,
      0x7465646279746573⟩ msg).1
    (sipBlocks ⟨0x736f6d6570736575, 0x646f72616e646f6d, 0x6c7967656e657261,
      0x7465646279746573⟩ msg).2

/-- UTF-8 encoding of a Unicode code point. -/
def utf8Encode (c : Nat) : List Nat :=
  if c < 128 then [c]
  else if c < 2048 then [192 + c / 64, 128 + c % 64]
  else if c < 65536 then [224 + c / 4096, 128 + c / 64 % 64, 128 + c % 64]
  else [240 + c / 262144, 128 + c / 4096 % 64, 128 + c / 64 % 64, 128 + c % 64]

def strBytes (s : String) : List Nat :=
  (s.data.map (fun c => utf8Encode c.toNat)).flatten

/-- Hash of a str through DefaultHasher: the UTF-8 bytes plus a 0xff
terminator byte fed to SipHash-1-3. -/
def defaultHashStr (s : String) : Nat :=
  sipHash13 (strBytes s ++ [255])

/-- Exponent of the unit in the last place of the f64 nearest to a 64-bit
integer value: an integer below 2 ^ 53 is exactly representable, and on the
binade [2 ^ (52 + e), 2 ^ (53 + e)) the ulp is 2 ^ e, up to e = 11 for the
top binade of u64 values. -/
def f64Exp (n : Nat) : Nat :=
  if n < 2 ^ 53 then 0
  else if n < 2 ^ 54 then 1
  else if n < 2 ^ 55 then 2
  else if n < 2 ^ 56 then 3
  else if n < 2 ^ 57 then 4
  else if n < 2 ^ 58 then 5
  else if n < 2 ^ 59 then 6
  else if n < 2 ^ 60 then 7
  else if n < 2 ^ 61 then 8
  else if n < 2 ^ 62 then 9
  else if n < 2 ^ 63 then 10
  else 11

/-- Value of the Rust cast hash as f64 for a u64 hash: round to nearest at
53-bit precision, ties to even. The result is a multiple of the ulp and can
reach 2 ^ 64 (for hashes within half an ulp below 2 ^ 64). -/
def roundF64 (n : Nat) : Nat :=
  if 2 * (n % 2 ^ f64Exp n) < 2 ^ f64Exp n then
    n / 2 ^ f64Exp n * 2 ^ f64Exp n
  else if 2 ^ f64Exp n < 2 * (n % 2 ^ f64Exp n) then
    (n / 2 ^ f64Exp n + 1) * 2 ^ f64Exp n
  else if n / 2 ^ f64Exp n % 2 = 0 then
    n / 2 ^ f64Exp n * 2 ^ f64Exp n
  else
    (n / 2 ^ f64Exp n + 1) * 2 ^ f64Exp n

/-- The f64 value of u64::MAX: rounding to the nearest double carries
18446744073709551615 to 2 ^ 64 exactly, so the normalizing division in
should_mirror is a division by 2 ^ 64. -/
def u64MaxAsF64 : ℚ := 18446744073709551616

/-- Determine if a trace should be mirrored using consistent hashing
(should_mirror in mirroring.rs). The cast hash as f64 is modelled by
roundF64; the division of the resulting float by 2 ^ 64 and the comparison
against the f64 value percent are exact in f64 (division by a power of two
of a value far above the subnormal range), so they are modelled as exact
rational operations. -/
def should_mirror (trace_id : String) (percent : ℚ) : Bool :=
  if percent ≤ 0 then false
  else if 1 ≤ percent then true
  else decide ((roundF64 (defaultHashStr trace_id) : ℚ) / u64MaxAsF64 < percent)

/-- Generate the shadow subject for a given original subject
(mirror_subject in mirroring.rs). -/
def mirror_subject (original : String) : String :=
  "shadow." ++ original

/-! ## Bus bridge records (crates/shield/src/router/nats_bridge.rs)

In recording mode the bridge appends one PublishRecord per publish and
returns Ok; publish sends no headers, mirror_publish sends the shadow
subject with the x-arqon-shadow header.
-/

/-- The tuple captured by the recording bridge. -/
structure PublishRecord where
  subject : String
  payload : List Nat
  headers : Option (List (String × String))
deriving DecidableEq

/-- Record produced by NatsBridge::publish in recording mode. -/
def NatsBridge.publishRecord (subject : String) (payload : List Nat) : PublishRecord :=
  ⟨subject, payload, none⟩

/-- Record produced by NatsBridge::mirror_publish in recording mode: the
shadow subject and the x-arqon-shadow header. -/
def NatsBridge.mirrorPublishRecord (original_subject : String) (payload : List Nat) :
    PublishRecord :=
  ⟨"shadow." ++ original_subject, payload, some [("x-arqon-shadow", "true")]⟩

/-! ## Schema validator (crates/shield/src/middleware/schema.rs)

The descriptor pool is abstracted as a list of message names paired with
their dynamic-decode outcomes (the prost_reflect decode of a payload
against that message descriptor, as a predicate on the payload bytes).
-/

structure SchemaValidator where
  pool : Option (List (String × (List Nat → Bool)))
  message_name : String
  strict : Bool
  init_error : Option String

/-- SchemaValidator::ensure_ready. -/
def SchemaValidator.ensure_ready (v : SchemaValidator) : Except String Unit :=
  if v.strict && v.pool.isNone then
    .error ("Schema validator not ready in strict mode: "
      ++ v.init_error.getD "descriptor pool unavailable")
  else .ok ()

/-- SchemaValidator::validate. -/
def SchemaValidator.validate (v : SchemaValidator) (payload : List Nat) :
    Except String Unit :=
  match v.pool with
  | some pool =>
    match pool.find? (fun e => e.fst == v.message_name) with
    | none => .error ("Message " ++ v.message_name ++ " not found in descriptor")
    | some e =>
      if e.snd payload then .ok ()
      else .error "Schema Validation Failed"
  | none =>
    if v.strict then
      .error ("Schema validation unavailable in strict mode: "
        ++ v.init_error.getD "descriptor pool unavailable")
    else .ok ()

/-! ## Policy engine (crates/shield/src/policy/engine.rs)

The Wasm runtime is abstracted as data: instantiating the loaded module
either fails (an instantiation error) or yields an instance carrying the
optional exported memory (its data size in bytes) and the optional typed
export policy_check, whose invocation either traps (trap, fuel exhaustion,
memory violation inside the guest) or returns an i32.
-/

structure WasmInstance where
  memory : Option Nat
  policy_check : Option (Int → Int → Except String Int)

structure PolicyEngine where
  moduleInst : Option (Except String WasmInstance)
  fuel_limit : Nat
  memory_limit_bytes : Nat

/-- Invocation of the guest export policy_check through get_typed_func and
call_async: a missing export or a trapping call is an error. -/
def callPolicyCheck (inst : WasmInstance) (payload : List Nat) : Except String Bool :=
  match inst.policy_check with
  | none => .error "missing export policy_check"
  | some f =>
    match f 0 ((payload.length : Int)) with
    | .error e => .error e
    | .ok r => .ok (r == 0)

/-- PolicyEngine::validate. With no module loaded the engine allows; with a
module, it instantiates, and for a non-empty payload requires the exported
memory, checks the payload against memory_limit_bytes and against the
instance memory size, writes the payload at offset 0, then invokes
policy_check(0, len) and returns whether the result is 0. -/
def PolicyEngine.validate (e : PolicyEngine) (payload : List Nat) : Except String Bool :=
  match e.moduleInst with
  | none => .ok true
  | some instRes =>
    match instRes with
    | .error msg => .error msg
    | .ok inst =>
      if payload.isEmpty then callPolicyCheck inst payload
      else
        match inst.memory with
        | none => .error "policy module missing exported memory"
        | some memSize =>
          if payload.length > e.memory_limit_bytes then
            .error "payload size exceeds policy memory limit"
          else if payload.length > memSize then
            .error "payload size exceeds module memory size"
          else callPolicyCheck inst payload

/-! ## Wasm host ABI (crates/shield/src/policy/abi.rs)

host_log and host_reject read guest memory with the Rust slice expression
memory.data(caller)[ptr as usize .. (ptr + len) as usize]. The embedding
keeps the partiality of that expression: a slice whose bounds do not
satisfy start ≤ end ≤ data.len() panics, which is a distinct outcome from
returning a host error.
-/

inductive HostOutcome (α : Type) where
  | ok (a : α)
  | hostErr (msg : String)
  | panic
deriving DecidableEq

/-- Value of the cast ptr as usize for an i32 value: sign extension to the
64-bit usize. -/
def i32AsUsize (x : Int) : Nat :=
  (x % 18446744073709551616).toNat

/-- Wrapping i32 addition result of ptr + len (release-profile overflow
semantics). -/
def wrapI32 (x : Int) : Int :=
  (x + 2147483648) % 4294967296 - 2147483648

/-- The Rust slice expression data[a..b]: panics unless a ≤ b ≤ data.len(). -/
def sliceRange (data : List Nat) (a b : Nat) : HostOutcome (List Nat) :=
  if a ≤ b ∧ b ≤ data.length then .ok ((data.drop a).take (b - a))
  else .panic

/-- The host_log closure registered in register_abi: requires the exported
memory, reads the message bytes, logs, returns 0. -/
def host_log (mem : Option (List Nat)) (_level ptr len : Int) : HostOutcome Int :=
  match mem with
  | none => .hostErr "memory not exported"
  | some data =>
    match sliceRange data (i32AsUsize ptr) (i32AsUsize (wrapI32 (ptr + len))) with
    | .panic => .panic
    | .hostErr e => .hostErr e
    | .ok _ => .ok 0

/-- The host_reject closure registered in register_abi: requires the
exported memory, reads the message bytes, then always raises the reject
error (a trap surfaced to the engine). -/
def host_reject (mem : Option (List Nat)) (_code msgPtr msgLen : Int) : HostOutcome Int :=
  match mem with
  | none => .hostErr "memory not exported"
  | some data =>
    match sliceRange data (i32AsUsize msgPtr) (i32AsUsize (wrapI32 (msgPtr + msgLen))) with
    | .panic => .panic
    | .hostErr e => .hostErr e
    | .ok _ => .hostErr "reject"

/-! ## Connection actor (crates/shield/src/handlers/socket.rs)

ConnectionActor::run processes one incoming message at a time. The outcomes
of the awaited external steps for the current frame - schema validation,
policy validation, the inbound publish, the echo send and the mirror
publish - enter the model as a StepResults record; the function returns the
ordered list of side effects the actor attempted and whether the receive
loop continues.
-/

inductive Effect where
  | publishInbound (subject : String) (payload : List Nat)
  | echoBinary (payload : List Nat)
  | mirrorPublish (subject : String) (payload : List Nat)
  | echoText (text : String)
deriving DecidableEq

structure StepResults where
  schemaRes : Except String Unit
  policyRes : Except String Bool
  publishRes : Except String Unit
  echoRes : Except String Unit
  mirrorRes : Except String Unit

structure ActorCtx where
  tenant_id : String
  trace_id : String
  mirror_config : MirrorConfig

/-- Handling of one binary frame in ConnectionActor::run. A schema error, a
policy deny and a policy error drop the frame; a publish error drops the
frame after the publish attempt; an echo error is only logged; the mirror
publish is attempted only when a rule matches the subject and the sampler
fires. Every branch continues the receive loop. -/
def mirrorEffects (ctx : ActorCtx) (subject : String) (payload : List Nat) :
    List Effect :=
  match ctx.mirror_config.get_percent subject with
  | some percent =>
    if should_mirror ctx.trace_id percent then
      [Effect.mirrorPublish subject payload]
    else []
  | none => []

def ConnectionActor.handleBinary (ctx : ActorCtx) (payload : List Nat)
    (s : StepResults) : List Effect × Bool :=
  match s.schemaRes with
  | .error _ => ([], true)
  | .ok _ =>
    match s.policyRes with
    | .ok false => ([], true)
    | .error _ => ([], true)
    | .ok true =>
      let subject := "in.t." ++ ctx.tenant_id ++ ".raw"
      match s.publishRes with
      | .error _ => ([.publishInbound subject payload], true)
      | .ok _ =>
        (.publishInbound subject payload :: .echoBinary payload
          :: mirrorEffects ctx subject payload, true)

/-- One inbound WebSocket message as seen by the actor loop. -/
inductive IncomingMsg where
  | binary (payload : List Nat)
  | text (t : String)
  | close
  | socketError (msg : String)
  | other

/-- One iteration of the ConnectionActor::run receive loop. -/
def ConnectionActor.step (ctx : ActorCtx) (msg : IncomingMsg) (s : StepResults) :
    List Effect × Bool :=
  match msg with
  | .binary payload => ConnectionActor.handleBinary ctx payload s
  | .text t => ([.echoText t], true)
  | .close => ([], false)
  | .socketError _ => ([], false)
  | .other => ([], true)

/-- Publishes reaching the recording bus bridge for a list of actor
effects, in order: the inbound publish and the mirror publish produce
records, the echo does not. -/
def recordedPublishes : List Effect → List PublishRecord
  | [] => []
  | .publishInbound subject payload :: es =>
    NatsBridge.publishRecord subject payload :: recordedPublishes es
  | .mirrorPublish subject payload :: es =>
    NatsBridge.mirrorPublishRecord subject payload :: recordedPublishes es
  | .echoBinary _ :: es => recordedPublishes es
  | .echoText _ :: es => recordedPublishes es

/-! ## Tenant subject normalization

Modelled from the spec: the function inbound_subject_for_tenant of
crates/shield/src/handlers/socket.rs is exercised by
tests/nats_subject_routing.rs but absent from the source snapshot (the
snapshot's socket.rs inlines an unnormalized format call). Per the spec,
the inbound subject is in.t.<normalized-tenant-id>.raw where normalization
replaces each character not in [A-Za-z0-9_-] with an underscore.
-/

/-- Modelled from the spec: normalization of one tenant-id character. -/
def normalizeTenantChar (c : Char) : Char :=
  if c.isAlphanum || c == '_' || c == '-' then c else '_'

/-- Modelled from the spec: normalization of a tenant id. -/
def normalizeTenantId (t : String) : String :=
  String.mk (t.data.map normalizeTenantChar)

/-- Modelled from the spec: inbound_subject_for_tenant. -/
def inbound_subject_for_tenant (tenant_id : String) : String :=
  "in.t." ++ normalizeTenantId tenant_id ++ ".raw"

/-! ## Startup preflight

Modelled from the spec: the startup preflight of
crates/shield/src/main.rs. The main.rs in the source snapshot is a stale
copy (duplicated struct fields, an outdated SchemaValidator constructor
arity, no preflight), so the preflight is modelled from the spec: boot is
refused when the signing secret is empty or whitespace-only, when
validation skipping is enabled via the environment, or when strict schema
mode is requested and the validator is not ready.
-/

structure BootConfig where
  jwt_secret : String
  jwt_skip_validation : Bool
  schema : SchemaValidator

inductive BootOutcome where
  | refused
  | listening
deriving DecidableEq

/-- Modelled from the spec: the startup preflight check. -/
def startupPreflight (c : BootConfig) : Except String Unit :=
  if c.jwt_secret.data.all Char.isWhitespace then
    .error "signing secret is empty or whitespace-only"
  else if c.jwt_skip_validation then
    .error "validation skipping must not be enabled"
  else
    match c.schema.ensure_ready with
    | .error e => .error e
    | .ok _ => .ok ()

/-- Modelled from the spec: the process serves only when the preflight
passes; otherwise it exits with an error before listening. -/
def bootMain (c : BootConfig) : BootOutcome :=
  match startupPreflight c with
  | .error _ => .refused
  | .ok _ => .listening

/-! ## Helper lemmas -/

theorem splitChar_of_not_mem (sep : Char) (l : List Char) (h : sep ∉ l) :
    splitChar sep l = [l] := by
  induction l with
  | nil => rfl
  | cons c cs ih =>
    have hc : c ≠ sep := fun hcs => h (hcs ▸ List.mem_cons_self c cs)
    have hcs : sep ∉ cs := fun hm => h (List.mem_cons_of_mem c hm)
    simp [splitChar, hc, ih hcs]

theorem splitChar_append_sep (sep : Char) (xs ys : List Char) (h : sep ∉ xs) :
    splitChar sep (xs ++ sep :: ys) = xs :: splitChar sep ys := by
  induction xs with
  | nil => simp [splitChar]
  | cons c cs ih =>
    have hc : c ≠ sep := fun hcs => h (hcs ▸ List.mem_cons_self c cs)
    have hcs : sep ∉ cs := fun hm => h (List.mem_cons_of_mem c hm)
    simp only [List.cons_append, splitChar, if_neg hc]
    rw [List.append_eq, ih hcs]

theorem sipFinish_lt (len : Nat) (s : SipState) (tail : List Nat) :
    sipFinish len s tail < 18446744073709551616 := by
  simp only [sipFinish, wrap64]
  exact Nat.mod_lt _ (by norm_num)

theorem defaultHashStr_lt (s : String) :
    defaultHashStr s < 18446744073709551616 := by
  unfold defaultHashStr sipHash13
  exact sipFinish_lt _ _ _

set_option maxHeartbeats 2000000 in
theorem f64Exp_le (n : Nat) : f64Exp n ≤ 11 := by
  unfold f64Exp
  repeat' split
  all_goals omega

theorem roundF64_le (n : Nat) (h : n < 2 ^ 64) : roundF64 n ≤ 2 ^ 64 := by
  have hu : (2 : Nat) ^ f64Exp n ∣ 2 ^ 64 :=
    pow_dvd_pow 2 (le_trans (f64Exp_le n) (by norm_num))
  have hq : n / 2 ^ f64Exp n < 2 ^ 64 / 2 ^ f64Exp n :=
    Nat.div_lt_div_of_lt_of_dvd hu h
  have hq1 : (n / 2 ^ f64Exp n + 1) * 2 ^ f64Exp n ≤ 2 ^ 64 := by
    calc (n / 2 ^ f64Exp n + 1) * 2 ^ f64Exp n
        ≤ 2 ^ 64 / 2 ^ f64Exp n * 2 ^ f64Exp n := Nat.mul_le_mul_right _ hq
      _ = 2 ^ 64 := Nat.div_mul_cancel hu
  have hq0 : n / 2 ^ f64Exp n * 2 ^ f64Exp n ≤ 2 ^ 64 :=
    le_trans (Nat.div_mul_le_self n _) (le_of_lt h)
  unfold roundF64
  split
  · exact hq0
  · split
    · exact hq1
    · split
      · exact hq0
      · exact hq1

theorem normalizeTenantChar_ne_dot (c : Char) : normalizeTenantChar c ≠ '.' := by
  unfold normalizeTenantChar
  by_cases h : (c.isAlphanum || c == '_' || c == '-') = true
  · rw [if_pos h]
    intro hc
    subst hc
    exact absurd h (by decide)
  · rw [if_neg h]
    decide

theorem normalizeTenantId_no_dot (t : String) : '.' ∉ (normalizeTenantId t).data := by
  intro hm
  have hdata : (normalizeTenantId t).data = t.data.map normalizeTenantChar := rfl
  rw [hdata] at hm
  obtain ⟨c, _, hc⟩ := List.mem_map.mp hm
  exact normalizeTenantChar_ne_dot c hc

theorem normalizeTenantId_of_valid (t : String)
    (h : ∀ c ∈ t.data, (c.isAlphanum || c == '_' || c == '-') = true) :
    normalizeTenantId t = t := by
  unfold normalizeTenantId
  have hm : t.data.map normalizeTenantChar = t.data.map id := by
    apply List.map_congr_left
    intro c hc
    unfold normalizeTenantChar
    rw [if_pos (h c hc)]
    rfl
  rw [hm, List.map_id]

theorem should_mirror_one (trace_id : String) : should_mirror trace_id 1 = true := by
  unfold should_mirror
  rw [if_neg (by norm_num), if_pos le_rfl]

/-! ## Claim theorems -/

/-- C2: the claim states that host_log and host_reject bounds-check
ptr + len against the exported memory size before reading and return an
error on an out-of-range access. The code does not: it evaluates the slice
expression memory.data(...)[ptr as usize .. (ptr + len) as usize] without
any check, so an out-of-range access panics instead of returning an error.
This theorem evaluates the embedded host functions at failing inputs: with
an exported memory of 8 bytes, host_log(2, 0, 9) and host_reject(1, 0, 9)
panic, as does host_log with a negative pointer; the memory-not-exported
error arises only when the memory export is absent. -/
theorem abi_out_of_range_panics :
    host_log (some (List.replicate 8 0)) 2 0 9 = .panic ∧
    host_reject (some (List.replicate 8 0)) 1 0 9 = .panic ∧
    host_log (some (List.replicate 8 0)) 2 (-1) 2 = .panic ∧
    host_log none 2 0 4 = .hostErr "memory not exported" ∧
    host_log (some (List.replicate 8 0)) 2 0 8 = .ok 0 := by
  refine ⟨by decide, by decide, by decide, by decide, by decide⟩

/-- C8: subject_matches is token-wise matching over dot-separated tokens: a
star consumes exactly one subject token, a gt token succeeds immediately on
the remaining non-empty token stream, other tokens require equality, and
both streams must be exhausted together. In particular the pattern in.t.*
does not match in.t.default.room1, the pattern in.t.default.* does, and the
pattern in.t.> matches every subject whose token list starts with in, t and
at least one further token. -/
theorem subject_matches_spec :
    subject_matches "in.t.*" "in.t.default.room1" = false ∧
    subject_matches "in.t.default.*" "in.t.default.room1" = true ∧
    (∀ (s x : String) (xs : List String),
      splitDot s = "in" :: "t" :: x :: xs → subject_matches "in.t.>" s = true) ∧
    subject_matches "in.t" "in.t.x" = false ∧
    subject_matches "in.t.x" "in.t" = false := by
  refine ⟨by decide, by decide, ?_, by decide, by decide⟩
  intro s x xs h
  unfold subject_matches
  rw [h]
  rfl

/-- C8 witness: the general gt clause of subject_matches_spec applied
to the concrete subject in.t.default.room1.sub. -/
theorem subject_matches_spec_witness :
    subject_matches "in.t.>" "in.t.default.room1.sub" = true :=
  subject_matches_spec.2.2.1 "in.t.default.room1.sub" "default" ["room1", "sub"]
    (by decide)

/-- C9 counterexample: the sampling decision is not characterized by the
exact quotient hash / 2 ^ 64. The cast hash as f64 rounds the hash of
trace-2 up to the next 53-bit value, and that rounded value divided by
2 ^ 64 is an f64-representable percent strictly between 0 and 1 at which
the code computes normalized = percent and returns false, while the exact
quotient hash / 2 ^ 64 is strictly below percent. -/
theorem should_mirror_rounding_counterexample :
    0 < (roundF64 (defaultHashStr "trace-2") : ℚ) / 2 ^ 64 ∧
    (roundF64 (defaultHashStr "trace-2") : ℚ) / 2 ^ 64 < 1 ∧
    defaultHashStr "trace-2" < roundF64 (defaultHashStr "trace-2") ∧
    should_mirror "trace-2"
      ((roundF64 (defaultHashStr "trace-2") : ℚ) / 2 ^ 64) = false ∧
    (defaultHashStr "trace-2" : ℚ) / 2 ^ 64
      < (roundF64 (defaultHashStr "trace-2") : ℚ) / 2 ^ 64 := by
  have hup : defaultHashStr "trace-2" < roundF64 (defaultHashStr "trace-2") := by decide
  have hlt64 : roundF64 (defaultHashStr "trace-2") < 2 ^ 64 := by decide
  have hpos : 0 < roundF64 (defaultHashStr "trace-2") := by decide
  have hp0 : 0 < (roundF64 (defaultHashStr "trace-2") : ℚ) / 2 ^ 64 := by
    apply div_pos
    · exact_mod_cast hpos
    · positivity
  have hp1 : (roundF64 (defaultHashStr "trace-2") : ℚ) / 2 ^ 64 < 1 := by
    rw [div_lt_one (by positivity)]
    exact_mod_cast hlt64
  refine ⟨hp0, hp1, hup, ?_, ?_⟩
  · unfold should_mirror
    rw [if_neg (not_le.mpr hp0), if_neg (not_le.mpr hp1)]
    have hdiv : u64MaxAsF64 = (2 : ℚ) ^ 64 := by norm_num [u64MaxAsF64]
    rw [hdiv]
    exact decide_eq_false (lt_irrefl _)
  · exact (div_lt_div_iff_of_pos_right (show (0 : ℚ) < 2 ^ 64 by positivity)).mpr
      (by exact_mod_cast hup)

/-- C9 (amended): should_mirror returns false when percent is at most 0 and
true when percent is at least 1; for percent strictly between 0 and 1 it
hashes the trace id with the stable 64-bit hash, converts the hash to a
double (rounding to the nearest 53-bit-mantissa value), normalizes by
division by 2 ^ 64 - giving a value in [0, 1] that can equal 1 - and
returns true exactly when that normalized value is strictly below percent;
the decision is a pure function of (trace_id, percent), hence identical on
every invocation. -/
theorem should_mirror_spec (trace_id : String) (percent : ℚ) :
    (percent ≤ 0 → should_mirror trace_id percent = false) ∧
    (1 ≤ percent → should_mirror trace_id percent = true) ∧
    (0 < percent → percent < 1 →
      (should_mirror trace_id percent = true ↔
        (roundF64 (defaultHashStr trace_id) : ℚ) / 2 ^ 64 < percent)) ∧
    0 ≤ (roundF64 (defaultHashStr trace_id) : ℚ) / 2 ^ 64 ∧
    (roundF64 (defaultHashStr trace_id) : ℚ) / 2 ^ 64 ≤ 1 ∧
    should_mirror trace_id percent = should_mirror trace_id percent := by
  have hdiv : u64MaxAsF64 = (2 : ℚ) ^ 64 := by norm_num [u64MaxAsF64]
  refine ⟨?_, ?_, ?_, ?_, ?_, rfl⟩
  · intro h
    unfold should_mirror
    rw [if_pos h]
  · intro h
    unfold should_mirror
    rw [if_neg (not_le.mpr (by linarith)), if_pos h]
  · intro h1 h2
    unfold should_mirror
    rw [if_neg (not_le.mpr h1), if_neg (not_le.mpr h2), hdiv]
    exact decide_eq_true_iff
  · positivity
  · rw [div_le_one (by positivity)]
    exact_mod_cast roundF64_le (defaultHashStr trace_id) (defaultHashStr_lt trace_id)

/-- C9 witness: should_mirror_spec applied at the concrete trace id
trace-1 with percents 0, 1 and one half. -/
theorem should_mirror_spec_witness :
    should_mirror "trace-1" 0 = false ∧
    should_mirror "trace-1" 1 = true ∧
    (should_mirror "trace-1" (1 / 2) = true ↔
      (roundF64 (defaultHashStr "trace-1") : ℚ) / 2 ^ 64 < 1 / 2) :=
  ⟨(should_mirror_spec "trace-1" 0).1 le_rfl,
   (should_mirror_spec "trace-1" 1).2.1 le_rfl,
   (should_mirror_spec "trace-1" (1 / 2)).2.2.1 (by norm_num) (by norm_num)⟩

/-- C5: SchemaValidator::validate looks up the configured message name when
the pool is present, erroring when the name is absent even in permissive
mode, and otherwise succeeds exactly when the payload decodes as that
message; with the pool absent it fails with the captured diagnostic in
strict mode and succeeds without inspecting the payload otherwise;
ensure_ready succeeds unless strict holds and the pool is absent. -/
theorem schema_validate_spec (v : SchemaValidator) (payload : List Nat) :
    (∀ pool, v.pool = some pool →
      pool.find? (fun e => e.fst == v.message_name) = none →
      v.validate payload
        = .error ("Message " ++ v.message_name ++ " not found in descriptor")) ∧
    (∀ pool e, v.pool = some pool →
      pool.find? (fun e => e.fst == v.message_name) = some e →
      (v.validate payload = .ok () ↔ e.snd payload = true)) ∧
    (v.pool = none → v.strict = true →
      v.validate payload
        = .error ("Schema validation unavailable in strict mode: "
            ++ v.init_error.getD "descriptor pool unavailable")) ∧
    (v.pool = none → v.strict = false → v.validate payload = .ok ()) ∧
    (v.ensure_ready = .ok () ↔ ¬(v.strict = true ∧ v.pool = none)) := by
  refine ⟨?_, ?_, ?_, ?_, ?_⟩
  · intro pool hp hf
    unfold SchemaValidator.validate
    rw [hp]
    simp only [hf]
  · intro pool e hp hf
    unfold SchemaValidator.validate
    rw [hp]
    simp only [hf]
    by_cases hd : e.snd payload = true
    · simp [hd]
    · simp [hd]
  · intro hp hs
    unfold SchemaValidator.validate
    rw [hp, hs]
    simp
  · intro hp hs
    unfold SchemaValidator.validate
    rw [hp, hs]
    simp
  · unfold SchemaValidator.ensure_ready
    by_cases hs : v.strict = true
    · by_cases hp : v.pool = none
      · rw [hs]
        simp [hs, hp, Option.isNone_iff_eq_none.mpr hp]
      · have : v.pool.isNone = false := by
          cases hpool : v.pool with
          | none => exact absurd hpool hp
          | some p => rfl
        simp [hs, this, hp]
    · have hs2 : v.strict = false := by
        cases hb : v.strict with
        | false => rfl
        | true => exact absurd hb hs
      simp [hs2]

/-- C5 witness: schema_validate_spec applied to three concrete validators:
one with a pool holding a decoder for message m that accepts exactly
one-byte payloads, one strict validator without a pool and a captured
diagnostic, and one permissive validator without a pool. -/
theorem schema_validate_spec_witness :
    SchemaValidator.validate
        ⟨some [("m", fun p => p.length == 1)], "m", false, none⟩ [5] = .ok () ∧
    SchemaValidator.validate ⟨none, "m", true, some "boom"⟩ []
      = .error "Schema validation unavailable in strict mode: boom" ∧
    SchemaValidator.validate ⟨none, "m", false, none⟩ [1, 2] = .ok () ∧
    SchemaValidator.ensure_ready ⟨none, "m", false, none⟩ = .ok () := by
  refine ⟨?_, ?_, ?_, ?_⟩
  · exact ((schema_validate_spec
      ⟨some [("m", fun p => p.length == 1)], "m", false, none⟩ [5]).2.1
        [("m", fun p => p.length == 1)] ("m", fun p => p.length == 1)
        rfl rfl).mpr rfl
  · exact (schema_validate_spec ⟨none, "m", true, some "boom"⟩ []).2.2.1 rfl rfl
  · exact (schema_validate_spec ⟨none, "m", false, none⟩ [1, 2]).2.2.2.1 rfl rfl
  · exact (schema_validate_spec ⟨none, "m", false, none⟩ []).2.2.2.2.mpr
      (by intro h; exact absurd h.1 (by decide))

/-- Reduction of PolicyEngine.validate with no module loaded. -/
theorem validate_red_none (e : PolicyEngine) (payload : List Nat)
    (h : e.moduleInst = none) : e.validate payload = .ok true := by
  unfold PolicyEngine.validate
  rw [h]

/-- Reduction of PolicyEngine.validate on an instantiation failure. -/
theorem validate_red_instErr (e : PolicyEngine) (payload : List Nat) (msg : String)
    (h : e.moduleInst = some (.error msg)) : e.validate payload = .error msg := by
  unfold PolicyEngine.validate
  rw [h]

/-- Reduction of PolicyEngine.validate on an empty payload. -/
theorem validate_red_empty (e : PolicyEngine) (payload : List Nat) (inst : WasmInstance)
    (h : e.moduleInst = some (.ok inst)) (hemp : payload.isEmpty = true) :
    e.validate payload = callPolicyCheck inst payload := by
  simp [PolicyEngine.validate, h, hemp]

/-- Reduction of PolicyEngine.validate with a non-empty payload and no
exported memory. -/
theorem validate_red_nomem (e : PolicyEngine) (payload : List Nat) (inst : WasmInstance)
    (h : e.moduleInst = some (.ok inst)) (hemp : payload.isEmpty = false)
    (hm : inst.memory = none) :
    e.validate payload = .error "policy module missing exported memory" := by
  simp [PolicyEngine.validate, h, hemp, hm]

/-- Reduction of PolicyEngine.validate with a non-empty payload and an
exported memory of a given size. -/
theorem validate_red_mem (e : PolicyEngine) (payload : List Nat) (inst : WasmInstance)
    (m : Nat) (h : e.moduleInst = some (.ok inst)) (hemp : payload.isEmpty = false)
    (hm : inst.memory = some m) :
    e.validate payload
      = if payload.length > e.memory_limit_bytes then
          .error "payload size exceeds policy memory limit"
        else if payload.length > m then
          .error "payload size exceeds module memory size"
        else callPolicyCheck inst payload := by
  simp [PolicyEngine.validate, h, hemp, hm]

theorem isEmpty_false_of_ne_nil (payload : List Nat) (hne : payload ≠ []) :
    payload.isEmpty = false := by
  cases payload with
  | nil => exact absurd rfl hne
  | cons a l => rfl

/-- C6: PolicyEngine::validate allows when no module is loaded; with a
loaded module and a non-empty payload it errors when the payload exceeds
memory_limit_bytes or the instance memory size, or when the memory export
is absent; otherwise it invokes the guest export policy_check at (0, len)
and returns whether the result is 0; an instantiation failure, a missing
policy_check export or a trapping call (including fuel exhaustion and
memory violations) surfaces as an error, never as Ok true. -/
theorem policy_validate_spec (e : PolicyEngine) (payload : List Nat) :
    (e.moduleInst = none → e.validate payload = .ok true) ∧
    (∀ msg, e.moduleInst = some (.error msg) → e.validate payload = .error msg) ∧
    (∀ inst, e.moduleInst = some (.ok inst) → payload ≠ [] →
      payload.length > e.memory_limit_bytes →
      ∃ msg, e.validate payload = .error msg) ∧
    (∀ inst memSize, e.moduleInst = some (.ok inst) → payload ≠ [] →
      inst.memory = some memSize → payload.length > memSize →
      ∃ msg, e.validate payload = .error msg) ∧
    (∀ inst, e.moduleInst = some (.ok inst) → payload ≠ [] → inst.memory = none →
      ∃ msg, e.validate payload = .error msg) ∧
    (∀ inst memSize f r, e.moduleInst = some (.ok inst) → payload ≠ [] →
      inst.memory = some memSize → payload.length ≤ e.memory_limit_bytes →
      payload.length ≤ memSize → inst.policy_check = some f →
      f 0 ((payload.length : Int)) = .ok r →
      e.validate payload = .ok (r == 0)) ∧
    (∀ inst, e.moduleInst = some (.ok inst) → inst.policy_check = none →
      ∃ msg, e.validate payload = .error msg) ∧
    (∀ inst f msg, e.moduleInst = some (.ok inst) → inst.policy_check = some f →
      f 0 ((payload.length : Int)) = .error msg →
      e.validate payload ≠ .ok true) := by
  refine ⟨?_, ?_, ?_, ?_, ?_, ?_, ?_, ?_⟩
  · exact validate_red_none e payload
  · intro msg h
    exact validate_red_instErr e payload msg h
  · intro inst h hne hbig
    have hemp := isEmpty_false_of_ne_nil payload hne
    cases hm : inst.memory with
    | none => exact ⟨_, validate_red_nomem e payload inst h hemp hm⟩
    | some m =>
      rw [validate_red_mem e payload inst m h hemp hm, if_pos hbig]
      exact ⟨_, rfl⟩
  · intro inst memSize h hne hm hbig
    have hemp := isEmpty_false_of_ne_nil payload hne
    rw [validate_red_mem e payload inst memSize h hemp hm]
    by_cases hlim : payload.length > e.memory_limit_bytes
    · rw [if_pos hlim]
      exact ⟨_, rfl⟩
    · rw [if_neg hlim, if_pos hbig]
      exact ⟨_, rfl⟩
  · intro inst h hne hm
    have hemp := isEmpty_false_of_ne_nil payload hne
    exact ⟨_, validate_red_nomem e payload inst h hemp hm⟩
  · intro inst memSize f r h hne hm hlim hsz hf hcall
    have hemp := isEmpty_false_of_ne_nil payload hne
    rw [validate_red_mem e payload inst memSize h hemp hm,
      if_neg (not_lt.mpr hlim), if_neg (not_lt.mpr hsz)]
    simp [callPolicyCheck, hf, hcall]
  · intro inst h hf
    have hcall : callPolicyCheck inst payload = .error "missing export policy_check" := by
      simp [callPolicyCheck, hf]
    by_cases hemp : payload.isEmpty
    · exact ⟨_, by rw [validate_red_empty e payload inst h hemp, hcall]⟩
    · have hempf : payload.isEmpty = false := Bool.not_eq_true _ ▸ Bool.eq_false_iff.mpr hemp
      cases hm : inst.memory with
      | none => exact ⟨_, validate_red_nomem e payload inst h hempf hm⟩
      | some m =>
        rw [validate_red_mem e payload inst m h hempf hm]
        by_cases hlim : payload.length > e.memory_limit_bytes
        · rw [if_pos hlim]
          exact ⟨_, rfl⟩
        · rw [if_neg hlim]
          by_cases hsz : payload.length > m
          · rw [if_pos hsz]
            exact ⟨_, rfl⟩
          · rw [if_neg hsz, hcall]
            exact ⟨_, rfl⟩
  · intro inst f msg h hf hcall
    have hcc : callPolicyCheck inst payload = .error msg := by
      simp [callPolicyCheck, hf, hcall]
    by_cases hemp : payload.isEmpty
    · rw [validate_red_empty e payload inst h hemp, hcc]
      intro hcontra
      exact Except.noConfusion hcontra
    · have hempf : payload.isEmpty = false := Bool.eq_false_iff.mpr hemp
      cases hm : inst.memory with
      | none =>
        rw [validate_red_nomem e payload inst h hempf hm]
        intro hcontra
        exact Except.noConfusion hcontra
      | some m =>
        rw [validate_red_mem e payload inst m h hempf hm]
        by_cases hlim : payload.length > e.memory_limit_bytes
        · rw [if_pos hlim]
          intro hcontra
          exact Except.noConfusion hcontra
        · rw [if_neg hlim]
          by_cases hsz : payload.length > m
          · rw [if_pos hsz]
            intro hcontra
            exact Except.noConfusion hcontra
          · rw [if_neg hsz, hcc]
            intro hcontra
            exact Except.noConfusion hcontra

/-- C6 witness: policy_validate_spec applied to concrete engines: one
without a module (allow), one whose payload exceeds the memory limit, one
whose guest returns 1 (deny, Ok false), and one whose guest returns 0
(allow). -/
theorem policy_validate_spec_witness :
    PolicyEngine.validate ⟨none, 10000, 4194304⟩ [1] = .ok true ∧
    PolicyEngine.validate
      ⟨some (.ok ⟨some 10, some fun _ _ => .ok 0⟩), 10000, 4⟩ [1, 2, 3, 4, 5]
      ≠ .ok true ∧
    PolicyEngine.validate
      ⟨some (.ok ⟨some 10, some fun _ _ => .ok 1⟩), 10000, 4194304⟩ [7]
      = .ok false ∧
    PolicyEngine.validate
      ⟨some (.ok ⟨some 10, some fun _ _ => .ok 0⟩), 10000, 4194304⟩ [7]
      = .ok true := by
  refine ⟨?_, ?_, ?_, ?_⟩
  · exact (policy_validate_spec ⟨none, 10000, 4194304⟩ [1]).1 rfl
  · obtain ⟨msg, hmsg⟩ := (policy_validate_spec
      ⟨some (.ok ⟨some 10, some fun _ _ => .ok 0⟩), 10000, 4⟩ [1, 2, 3, 4, 5]).2.2.1
      ⟨some 10, some fun _ _ => .ok 0⟩ rfl (by decide) (by decide)
    rw [hmsg]
    intro hcontra
    exact Except.noConfusion hcontra
  · exact (policy_validate_spec
      ⟨some (.ok ⟨some 10, some fun _ _ => .ok 1⟩), 10000, 4194304⟩ [7]).2.2.2.2.2.1
      ⟨some 10, some fun _ _ => .ok 1⟩ 10 (fun _ _ => .ok 1) 1 rfl (by decide) rfl
      (by norm_num) (by norm_num) rfl rfl
  · exact (policy_validate_spec
      ⟨some (.ok ⟨some 10, some fun _ _ => .ok 0⟩), 10000, 4194304⟩ [7]).2.2.2.2.2.1
      ⟨some 10, some fun _ _ => .ok 0⟩ 10 (fun _ _ => .ok 0) 0 rfl (by decide) rfl
      (by norm_num) (by norm_num) rfl rfl


/-- Membership in the mirror-effect list forces the subject and payload of
the current frame. -/
theorem mem_mirrorEffects (ctx : ActorCtx) (s0 : String) (payload : List Nat)
    (subj : String) (pl : List Nat)
    (h : Effect.mirrorPublish subj pl ∈ mirrorEffects ctx s0 payload) :
    subj = s0 ∧ pl = payload := by
  unfold mirrorEffects at h
  cases hg : ctx.mirror_config.get_percent s0 with
  | none =>
    rw [hg] at h
    simp at h
  | some p =>
    simp only [hg] at h
    by_cases hsm : should_mirror ctx.trace_id p = true
    · rw [if_pos hsm] at h
      simp at h
      exact h
    · rw [if_neg hsm] at h
      simp at h

/-- C3: per-frame fail-closed behaviour of the connection actor: a schema
failure, a policy deny and a policy error produce no publish, no echo and
no mirror; a failed inbound publish skips the echo and the mirror; the
mirror publish occurs only when the inbound publish of the same frame
succeeded; and in every case the binary-frame branch continues the receive
loop, leaving the connection open. -/
theorem actor_fail_closed_spec (ctx : ActorCtx) (payload : List Nat) (s : StepResults) :
    (∀ msg, s.schemaRes = .error msg →
      ConnectionActor.handleBinary ctx payload s = ([], true)) ∧
    (s.policyRes = .ok false → ConnectionActor.handleBinary ctx payload s = ([], true)) ∧
    (∀ msg, s.policyRes = .error msg →
      ConnectionActor.handleBinary ctx payload s = ([], true)) ∧
    (∀ msg, s.schemaRes = .ok () → s.policyRes = .ok true → s.publishRes = .error msg →
      ConnectionActor.handleBinary ctx payload s
        = ([.publishInbound ("in.t." ++ ctx.tenant_id ++ ".raw") payload], true)) ∧
    (∀ subj pl,
      Effect.mirrorPublish subj pl ∈ (ConnectionActor.handleBinary ctx payload s).1 →
      s.publishRes = .ok () ∧
      Effect.publishInbound subj pl ∈ (ConnectionActor.handleBinary ctx payload s).1) ∧
    (ConnectionActor.handleBinary ctx payload s).2 = true := by
  refine ⟨?_, ?_, ?_, ?_, ?_, ?_⟩
  · intro msg h
    simp [ConnectionActor.handleBinary, h]
  · intro h
    cases hs : s.schemaRes with
    | error m => simp [ConnectionActor.handleBinary, hs]
    | ok u => simp [ConnectionActor.handleBinary, hs, h]
  · intro msg h
    cases hs : s.schemaRes with
    | error m => simp [ConnectionActor.handleBinary, hs]
    | ok u => simp [ConnectionActor.handleBinary, hs, h]
  · intro msg h1 h2 h3
    simp [ConnectionActor.handleBinary, h1, h2, h3]
  · intro subj pl hmem
    cases hs : s.schemaRes with
    | error m =>
      rw [show ConnectionActor.handleBinary ctx payload s = ([], true) from by
        simp [ConnectionActor.handleBinary, hs]] at hmem
      simp at hmem
    | ok u =>
      cases hp : s.policyRes with
      | error m =>
        rw [show ConnectionActor.handleBinary ctx payload s = ([], true) from by
          simp [ConnectionActor.handleBinary, hs, hp]] at hmem
        simp at hmem
      | ok b =>
        cases b with
        | false =>
          rw [show ConnectionActor.handleBinary ctx payload s = ([], true) from by
            simp [ConnectionActor.handleBinary, hs, hp]] at hmem
          simp at hmem
        | true =>
          cases hpub : s.publishRes with
          | error m =>
            rw [show ConnectionActor.handleBinary ctx payload s
                = ([.publishInbound ("in.t." ++ ctx.tenant_id ++ ".raw") payload],
                    true) from by
              simp [ConnectionActor.handleBinary, hs, hp, hpub]] at hmem
            simp at hmem
          | ok v =>
            cases v
            cases u
            have hred : ConnectionActor.handleBinary ctx payload s
                = (Effect.publishInbound ("in.t." ++ ctx.tenant_id ++ ".raw") payload
                    :: Effect.echoBinary payload
                    :: mirrorEffects ctx ("in.t." ++ ctx.tenant_id ++ ".raw") payload,
                   true) := by
              simp [ConnectionActor.handleBinary, hs, hp, hpub]
            rw [hred] at hmem
            rw [hred]
            refine ⟨rfl, ?_⟩
            simp only [List.mem_cons] at hmem
            rcases hmem with h1 | h2 | h3
            · exact absurd h1 (by simp)
            · exact absurd h2 (by simp)
            · obtain ⟨he1, he2⟩ := mem_mirrorEffects ctx _ payload subj pl h3
              rw [he1, he2]
              simp
  · cases hs : s.schemaRes with
    | error m => simp [ConnectionActor.handleBinary, hs]
    | ok u =>
      cases hp : s.policyRes with
      | error m => simp [ConnectionActor.handleBinary, hs, hp]
      | ok b =>
        cases b with
        | false => simp [ConnectionActor.handleBinary, hs, hp]
        | true =>
          cases hpub : s.publishRes with
          | error m => simp [ConnectionActor.handleBinary, hs, hp, hpub]
          | ok v => simp [ConnectionActor.handleBinary, hs, hp, hpub]

/-- C3 witness: actor_fail_closed_spec applied to a concrete context and
step results where schema validation fails: no effect is attempted and the
loop continues. -/
theorem actor_fail_closed_spec_witness :
    ConnectionActor.handleBinary ⟨"tenant-a", "trace-1", ⟨false, []⟩⟩ [1]
      ⟨.error "schema violation", .ok true, .ok (), .ok (), .ok ()⟩ = ([], true) :=
  (actor_fail_closed_spec ⟨"tenant-a", "trace-1", ⟨false, []⟩⟩ [1]
    ⟨.error "schema violation", .ok true, .ok (), .ok (), .ok ()⟩).1
    "schema violation" rfl

/-- C10: a failed echo does not abort the frame: with schema, policy and
inbound publish successful and the echo send failing, the actor still
performs the mirror sampling and, when sampled, the shadow publish, in
order after the echo attempt, and the receive loop continues. -/
theorem actor_echo_failure_spec (ctx : ActorCtx) (payload : List Nat) (s : StepResults)
    (msg : String) (percent : ℚ)
    (hs : s.schemaRes = .ok ()) (hp : s.policyRes = .ok true)
    (hpub : s.publishRes = .ok ()) (_hecho : s.echoRes = .error msg)
    (hper : ctx.mirror_config.get_percent ("in.t." ++ ctx.tenant_id ++ ".raw")
      = some percent)
    (hsm : should_mirror ctx.trace_id percent = true) :
    ConnectionActor.handleBinary ctx payload s
      = ([.publishInbound ("in.t." ++ ctx.tenant_id ++ ".raw") payload,
          .echoBinary payload,
          .mirrorPublish ("in.t." ++ ctx.tenant_id ++ ".raw") payload], true) := by
  simp [ConnectionActor.handleBinary, mirrorEffects, hs, hp, hpub, hper, hsm]

/-- C10 witness: actor_echo_failure_spec at a concrete context whose mirror
rule matches with percent 1, with the echo failing. -/
theorem actor_echo_failure_spec_witness :
    ConnectionActor.handleBinary ⟨"a", "t", ⟨true, [⟨"in.t.>", 1⟩]⟩⟩ [1]
      ⟨.ok (), .ok true, .ok (), .error "io", .ok ()⟩
      = ([.publishInbound "in.t.a.raw" [1], .echoBinary [1],
          .mirrorPublish "in.t.a.raw" [1]], true) :=
  actor_echo_failure_spec ⟨"a", "t", ⟨true, [⟨"in.t.>", 1⟩]⟩⟩ [1]
    ⟨.ok (), .ok true, .ok (), .error "io", .ok ()⟩ "io" 1
    rfl rfl rfl rfl (by decide) (by decide)

/-- C7 counterexample: the rule pattern in.t. does not match the subject
in.t.tenant-b.raw under token-wise matching (the trailing empty token of
the pattern fails to equal the third subject token), so get_percent yields
none and a fully successful frame for tenant-b under that configuration
produces exactly one publish record, with no shadow record. -/
theorem mirror_dot_rule_counterexample :
    subject_matches "in.t." "in.t.tenant-b.raw" = false ∧
    MirrorConfig.get_percent ⟨true, [⟨"in.t.", 1⟩]⟩ "in.t.tenant-b.raw" = none ∧
    recordedPublishes (ConnectionActor.handleBinary
        ⟨"tenant-b", "trace-1", ⟨true, [⟨"in.t.", 1⟩]⟩⟩ [1, 2, 3]
        ⟨.ok (), .ok true, .ok (), .ok (), .ok ()⟩).1
      = [⟨"in.t.tenant-b.raw", [1, 2, 3], none⟩] := by
  refine ⟨by decide, by decide, by decide⟩

/-- C7 (amended): with the mirror configuration enabled and the single rule
(pattern in.t.>, percent 1.0), a binary frame for tenant-b whose schema
check, policy check and inbound publish succeed produces exactly two
publish records in order: first in.t.tenant-b.raw with no headers, then
shadow.in.t.tenant-b.raw with the header x-arqon-shadow set to true; the
rule matches the subject, so get_percent returns 1. -/
theorem shadow_routing_spec (trace_id : String) (payload : List Nat)
    (echoRes mirrorRes : Except String Unit) :
    MirrorConfig.get_percent ⟨true, [⟨"in.t.>", 1⟩]⟩ "in.t.tenant-b.raw" = some 1 ∧
    recordedPublishes (ConnectionActor.handleBinary
        ⟨"tenant-b", trace_id, ⟨true, [⟨"in.t.>", 1⟩]⟩⟩ payload
        ⟨.ok (), .ok true, .ok (), echoRes, mirrorRes⟩).1
      = [⟨"in.t.tenant-b.raw", payload, none⟩,
         ⟨"shadow.in.t.tenant-b.raw", payload, some [("x-arqon-shadow", "true")]⟩] := by
  constructor
  · decide
  · have hper : MirrorConfig.get_percent ⟨true, [⟨"in.t.>", 1⟩]⟩
        ("in.t." ++ "tenant-b" ++ ".raw") = some 1 := by decide
    simp [ConnectionActor.handleBinary, mirrorEffects, hper, should_mirror_one,
      recordedPublishes, NatsBridge.publishRecord, NatsBridge.mirrorPublishRecord]

/-- C1 counterexample: subject construction is not injective on all
distinct tenant ids, because normalization identifies them: the distinct
tenant ids a.b and a_b normalize to the same token and yield the same
inbound subject. -/
theorem inbound_subject_not_injective :
    "a.b" ≠ "a_b" ∧
    inbound_subject_for_tenant "a.b" = inbound_subject_for_tenant "a_b" := by
  refine ⟨by decide, by decide⟩

/-- C1 (amended): the inbound subject is in.t.<normalized-tenant-id>.raw
where normalization replaces each character outside [A-Za-z0-9_-] with an
underscore; the subject always splits into exactly four dot-separated
tokens; and for distinct tenant ids consisting only of characters in
[A-Za-z0-9_-] (equivalently, ids unchanged by normalization) the subjects
differ. -/
theorem inbound_subject_spec (t : String) :
    inbound_subject_for_tenant t = "in.t." ++ normalizeTenantId t ++ ".raw" ∧
    splitDot (inbound_subject_for_tenant t) = ["in", "t", normalizeTenantId t, "raw"] ∧
    (splitDot (inbound_subject_for_tenant t)).length = 4 ∧
    (∀ t1 t2 : String,
      (∀ c ∈ t1.data, (c.isAlphanum || c == '_' || c == '-') = true) →
      (∀ c ∈ t2.data, (c.isAlphanum || c == '_' || c == '-') = true) →
      t1 ≠ t2 → inbound_subject_for_tenant t1 ≠ inbound_subject_for_tenant t2) := by
  have hdata : (inbound_subject_for_tenant t).data
      = ['i', 'n'] ++ '.' :: (['t'] ++ '.'
          :: ((normalizeTenantId t).data ++ '.' :: ['r', 'a', 'w'])) := by
    show ("in.t." ++ normalizeTenantId t ++ ".raw").data = _
    rw [String.data_append, String.data_append]
    show ['i', 'n', '.', 't', '.'] ++ (normalizeTenantId t).data ++ ['.', 'r', 'a', 'w'] = _
    simp
  have hsplit : splitChar '.' (inbound_subject_for_tenant t).data
      = [['i', 'n'], ['t'], (normalizeTenantId t).data, ['r', 'a', 'w']] := by
    rw [hdata, splitChar_append_sep _ _ _ (by decide),
      splitChar_append_sep _ _ _ (by decide),
      splitChar_append_sep _ _ _ (normalizeTenantId_no_dot t),
      splitChar_of_not_mem _ _ (by decide)]
  have htok : splitDot (inbound_subject_for_tenant t)
      = ["in", "t", normalizeTenantId t, "raw"] := by
    unfold splitDot
    rw [hsplit]
    rfl
  refine ⟨rfl, htok, by rw [htok]; rfl, ?_⟩
  intro t1 t2 h1 h2 hne heq
  apply hne
  have e1 := normalizeTenantId_of_valid t1 h1
  have e2 := normalizeTenantId_of_valid t2 h2
  have hd := congrArg String.data heq
  unfold inbound_subject_for_tenant at hd
  rw [e1, e2, String.data_append, String.data_append, String.data_append,
    String.data_append] at hd
  exact String.ext (List.append_cancel_left (List.append_cancel_right hd))

/-- C1 witness: inbound_subject_spec applied to the concrete tenant ids
used by the repository's subject-routing tests: normalization substitutes
the dot and the space of tenant.with spaces, and the subjects for tenant-a
and tenant-b differ. -/
theorem inbound_subject_spec_witness :
    splitDot (inbound_subject_for_tenant "tenant.with spaces")
      = ["in", "t", "tenant_with_spaces", "raw"] ∧
    inbound_subject_for_tenant "tenant-a" ≠ inbound_subject_for_tenant "tenant-b" := by
  constructor
  · rw [(inbound_subject_spec "tenant.with spaces").2.1]
    decide
  · exact (inbound_subject_spec "tenant-a").2.2.2 "tenant-a" "tenant-b"
      (by decide) (by decide) (by decide)

/-- C4: the startup preflight refuses to boot - the process never reaches
the listening state - whenever the signing secret is empty or
whitespace-only, or validation skipping is enabled, or strict schema mode
is requested while the descriptor pool is absent (the validator is not
ready). -/
theorem startup_preflight_spec (c : BootConfig) :
    (c.jwt_secret.data.all Char.isWhitespace = true → bootMain c = .refused) ∧
    (c.jwt_skip_validation = true → bootMain c = .refused) ∧
    (c.schema.strict = true → c.schema.pool = none → bootMain c = .refused) := by
  refine ⟨?_, ?_, ?_⟩
  · intro h
    simp [bootMain, startupPreflight, h]
  · intro h
    by_cases hw : c.jwt_secret.data.all Char.isWhitespace = true
    · simp [bootMain, startupPreflight, hw]
    · simp [bootMain, startupPreflight, hw, h]
  · intro hstrict hpool
    have hready : c.schema.ensure_ready
        = .error ("Schema validator not ready in strict mode: "
            ++ c.schema.init_error.getD "descriptor pool unavailable") := by
      unfold SchemaValidator.ensure_ready
      simp [hstrict, hpool]
    by_cases hw : c.jwt_secret.data.all Char.isWhitespace = true
    · simp [bootMain, startupPreflight, hw]
    · by_cases hskip : c.jwt_skip_validation = true
      · simp [bootMain, startupPreflight, hw, hskip]
      · simp [bootMain, startupPreflight, hw, hskip, hready]

/-- C4 witness: startup_preflight_spec applied to three concrete boot
configurations: an empty secret, validation skipping enabled, and strict
schema mode with the descriptor pool absent. -/
theorem startup_preflight_spec_witness :
    bootMain ⟨"", false, ⟨none, "arqon.v1.Envelope", false, none⟩⟩ = .refused ∧
    bootMain ⟨"secret", true, ⟨none, "arqon.v1.Envelope", false, none⟩⟩ = .refused ∧
    bootMain ⟨"secret", false,
      ⟨none, "arqon.v1.Envelope", true, some "no descriptor"⟩⟩ = .refused :=
  ⟨(startup_preflight_spec ⟨"", false, ⟨none, "arqon.v1.Envelope", false, none⟩⟩).1
      (by decide),
   (startup_preflight_spec ⟨"secret", true, ⟨none, "arqon.v1.Envelope", false, none⟩⟩).2.1
      rfl,
   (startup_preflight_spec ⟨"secret", false,
      ⟨none, "arqon.v1.Envelope", true, some "no descriptor"⟩⟩).2.2 rfl rfl⟩
